import Mathlib

/-!
Shallow embedding of the calculation-and-state core of the Deadlock character
build planner:
  * `src/components/HeroBuild.js` — the 12-slot build state machine
    (`setItem`, `removeItem`, `reset`, `loadBuild`, `getBuildData`,
    `isSlotLocked`, `getTotalSouls`, `hasItem`);
  * `src/utils/calculator.js` — the pure stats engine
    (`calculateStats`, `calculateInvestmentBonuses`,
    `calculateEffectiveHealth`, `calculateAbilityDamage`,
    `calculateAbilityPointsUsed`, `getAbilityPointsAvailable`).

JavaScript numbers are modelled as `ℚ`.  JS `Infinity` (the value of
`calculateEffectiveHealth` at resist ≥ 1) is modelled by `none` in an
`Option ℚ`.  Object fields that the embedded code never reads (display
names, tiers, effect descriptors) are omitted from the records.
-/

namespace Deadlock

/-- Item category, one of `weapon`/`vitality`/`spirit` (data model §3). -/
inductive Category where
  | weapon
  | vitality
  | spirit
deriving DecidableEq, Repr

/-- The numeric stat keys addressable by an item's `stats` object: the nine
base-character stats plus the nine derived accumulator fields that
`calculateStats` zero-initializes.  (`stats[stat] = (stats[stat] || 0) + value`
writes to whichever key the item names; keys outside this set are never read
back by the engine.) -/
inductive StatKey where
  | health
  | healthRegen
  | bulletDamage
  | fireRate
  | clipSize
  | reloadTime
  | moveSpeed
  | sprintSpeed
  | stamina
  | weaponDamage
  | spiritPower
  | bulletLifesteal
  | spiritLifesteal
  | bulletResist
  | spiritResist
  | cooldownReduction
  | abilityRange
  | abilityDuration
deriving DecidableEq, Repr

/-- An item: identifier, category, soul cost, and its stat-modifier entries
(the fields of `item.stats`, in object-entry order). -/
structure Item where
  id : String
  category : Category
  cost : ℚ
  stats : List (StatKey × ℚ)
deriving DecidableEq, Repr

/-- The 12-slot array `this.slots` of `HeroBuild`: a list of nullable item
references (`null` = `none`). -/
abbrev Slots := List (Option Item)

/-- `this.unlockThresholds = [0,0,0,0,0,0,0,0,0,3000,6000,9000]`. -/
def unlockThresholds : List ℚ :=
  [0, 0, 0, 0, 0, 0, 0, 0, 0, 3000, 6000, 9000]

/-- `getTotalSouls()`: `slots.filter(item => item !== null).reduce((sum, item) => sum + item.cost, 0)`. -/
def getTotalSouls (slots : Slots) : ℚ :=
  (slots.filterMap (fun s => s)).foldl (fun sum item => sum + item.cost) 0

/-- `isSlotLocked(index)`: `getTotalSouls() < this.unlockThresholds[index]`.
For an out-of-range index the JS comparison against `undefined` is false,
hence the `none` branch. -/
def isSlotLocked (slots : Slots) (index : ℕ) : Bool :=
  match unlockThresholds[index]? with
  | some threshold => getTotalSouls slots < threshold
  | none => false

/-- `hasItem(itemId)`: `slots.some(slot => slot && slot.id === itemId)`. -/
def hasItem (slots : Slots) (itemId : String) : Bool :=
  slots.any (fun slot =>
    match slot with
    | some it => it.id == itemId
    | none => false)

/-- The three possible return values of `setItem`:
`false` (locked slot), `{success:false, reason:'duplicate'}`, `{success:true}`. -/
inductive SetItemResult where
  | locked
  | duplicate
  | ok
deriving DecidableEq, Repr

/-- `setItem(index, item)`: rejects a locked slot first (returning `false`),
then a duplicate identifier (returning the duplicate record), and otherwise
writes `slots[index] = item` and reports success.  The returned pair is
(updated slots, returned value). -/
def setItem (slots : Slots) (index : ℕ) (item : Item) : Slots × SetItemResult :=
  if isSlotLocked slots index then (slots, .locked)
  else if hasItem slots item.id then (slots, .duplicate)
  else (slots.set index (some item), .ok)

/-- `removeItem(index)`: `slots[index] = null`, unconditionally. -/
def removeItem (slots : Slots) (index : ℕ) : Slots :=
  slots.set index none

/-- The initial build: `new Array(12).fill(null)`. -/
def emptyBuild : Slots := List.replicate 12 none

/-- `reset()`: `for (i = 0; i < 12; i++) slots[i] = null`. -/
def resetBuild (slots : Slots) : Slots :=
  (List.range 12).foldl (fun acc i => acc.set i none) slots

/-- The two persisted build shapes accepted by `loadBuild`: the current
ordered-array format and the legacy category-keyed format
`{weapon, vitality, spirit, flex}` (each key optional, entries nullable). -/
inductive BuildData where
  | arrayFormat (slots : List (Option Item))
  | legacyFormat (weapon vitality spirit flex : Option (List (Option Item)))
deriving Repr

/-- The array branch of `loadBuild`:
`buildData.slots.forEach((item, index) => { if (index < 12) slots[index] = item })`,
unrolled with an explicit running index. -/
def loadArraySlots (slots : Slots) (arr : List (Option Item)) (start : ℕ) : Slots :=
  match arr with
  | [] => slots
  | item :: rest =>
      loadArraySlots (if start < 12 then slots.set start item else slots) rest (start + 1)

/-- One legacy category list: for each entry,
`if (slotIndex < 12 && item) slots[slotIndex] = item; slotIndex++`. -/
def loadLegacyList (slots : Slots) (items : List (Option Item)) (idx : ℕ) : Slots × ℕ :=
  match items with
  | [] => (slots, idx)
  | item :: rest =>
      loadLegacyList
        (if idx < 12 then
          match item with
          | some _ => slots.set idx item
          | none => slots
        else slots)
        rest (idx + 1)

/-- One legacy category key: skipped entirely when absent
(`if (buildData.slots[category])`). -/
def loadLegacyCat (acc : Slots × ℕ) (cat : Option (List (Option Item))) : Slots × ℕ :=
  match cat with
  | none => acc
  | some items => loadLegacyList acc.1 items acc.2

/-- `loadBuild(buildData)` on the two accepted shapes.  (The guard
`if (!buildData || !buildData.slots) return` only filters malformed input and
is outside both accepted formats.)  The legacy branch flattens the categories
in the fixed order `['weapon','vitality','spirit','flex']`. -/
def loadBuild (slots : Slots) : BuildData → Slots
  | .arrayFormat arr => loadArraySlots slots arr 0
  | .legacyFormat w v sp f => ([w, v, sp, f].foldl loadLegacyCat (slots, 0)).1

/-- `getBuildData()`: `{ slots: [...this.slots] }` (a copy of the array). -/
def getBuildData (slots : Slots) : BuildData :=
  .arrayFormat slots

/-- The build invariant of spec §4.2: no two distinct non-null slots hold
items with the same identifier. -/
def distinctIds (slots : Slots) : Prop :=
  ∀ i j : ℕ, ∀ a b : Item, i ≠ j →
    slots[i]? = some (some a) → slots[j]? = some (some b) → a.id ≠ b.id

/-- Build states reachable from the empty build by the public mutators
`setItem`, `removeItem` and `reset` (no `loadBuild`). -/
inductive ReachableNoLoad : Slots → Prop where
  | init : ReachableNoLoad emptyBuild
  | equip (s : Slots) (i : ℕ) (it : Item) :
      ReachableNoLoad s → ReachableNoLoad (setItem s i it).1
  | unequip (s : Slots) (i : ℕ) :
      ReachableNoLoad s → ReachableNoLoad (removeItem s i)
  | doReset (s : Slots) :
      ReachableNoLoad s → ReachableNoLoad (resetBuild s)

/-- Build states reachable from the empty build by all four public
operations, `loadBuild` included (either accepted format). -/
inductive Reachable : Slots → Prop where
  | init : Reachable emptyBuild
  | equip (s : Slots) (i : ℕ) (it : Item) :
      Reachable s → Reachable (setItem s i it).1
  | unequip (s : Slots) (i : ℕ) :
      Reachable s → Reachable (removeItem s i)
  | doReset (s : Slots) :
      Reachable s → Reachable (resetBuild s)
  | load (s : Slots) (bd : BuildData) :
      Reachable s → Reachable (loadBuild s bd)

/-- A 100-soul weapon item used in concrete instantiations. -/
def itemA : Item := ⟨"itemA", .weapon, 100, []⟩

/-- A second, distinct item. -/
def itemB : Item := ⟨"itemB", .weapon, 200, []⟩

/-- An item with a negative cost (tolerated by the code per spec §7). -/
def itemNeg : Item := ⟨"itemNeg", .weapon, -1, []⟩

/-- The empty build with `itemA` equipped in slot 0. -/
def slotsA : Slots := emptyBuild.set 0 (some itemA)

/-- The empty build with the negative-cost item equipped in slot 0. -/
def slotsNeg : Slots := emptyBuild.set 0 (some itemNeg)

/-- The array-format build data holding `itemA` twice. -/
def dupData : BuildData := BuildData.arrayFormat [some itemA, some itemA]

/-! ## Stats engine (`src/utils/calculator.js`) -/

/-- The per-category cumulative soul-spend totals accumulated by
`calculateStats` (`investmentTotals`). -/
structure InvestmentTotals where
  weapon : ℚ
  vitality : ℚ
  spirit : ℚ
deriving DecidableEq, Repr

/-- The result of `calculateInvestmentBonuses`:
`{weapon: {weaponDamage}, vitality: {health}, spirit: {spiritPower}}`. -/
structure InvestmentBonuses where
  weaponWeaponDamage : ℚ
  vitalityHealth : ℚ
  spiritSpiritPower : ℚ
deriving DecidableEq, Repr

/-- `calculateInvestmentBonuses(totals)`: each track picks its bonus by the
descending if/else-if cascade over thresholds 12000/5600/2400/800. -/
def calculateInvestmentBonuses (totals : InvestmentTotals) : InvestmentBonuses :=
  { weaponWeaponDamage :=
      if totals.weapon ≥ 12000 then 0.28
      else if totals.weapon ≥ 5600 then 0.18
      else if totals.weapon ≥ 2400 then 0.10
      else if totals.weapon ≥ 800 then 0.04
      else 0
    vitalityHealth :=
      if totals.vitality ≥ 12000 then 375
      else if totals.vitality ≥ 5600 then 225
      else if totals.vitality ≥ 2400 then 125
      else if totals.vitality ≥ 800 then 50
      else 0
    spiritSpiritPower :=
      if totals.spirit ≥ 12000 then 40
      else if totals.spirit ≥ 5600 then 24
      else if totals.spirit ≥ 2400 then 12
      else if totals.spirit ≥ 800 then 4
      else 0 }

/-- The weapon track's (breakpoint, bonus magnitude) table, ascending. -/
def weaponTierTable : List (ℚ × ℚ) :=
  [(800, 0.04), (2400, 0.10), (5600, 0.18), (12000, 0.28)]

/-- The vitality track's (breakpoint, bonus magnitude) table, ascending. -/
def vitalityTierTable : List (ℚ × ℚ) :=
  [(800, 50), (2400, 125), (5600, 225), (12000, 375)]

/-- The spirit track's (breakpoint, bonus magnitude) table, ascending. -/
def spiritTierTable : List (ℚ × ℚ) :=
  [(800, 4), (2400, 12), (5600, 24), (12000, 40)]

/-- Modelled from the spec's wording for C4: "the magnitude of the highest
breakpoint not exceeding that category's total ... and 0 below 800" — the
last entry of the ascending table whose breakpoint is ≤ the spend, else 0. -/
def highestTierBonus (table : List (ℚ × ℚ)) (spend : ℚ) : ℚ :=
  table.foldl (fun acc p => if p.1 ≤ spend then p.2 else acc) 0

/-- `calculateEffectiveHealth(health, resist)`: `Infinity` (here `none`) at
resist ≥ 1, else `health / (1 - resist)`. -/
def calculateEffectiveHealth (health resist : ℚ) : Option ℚ :=
  if resist ≥ 1 then none else some (health / (1 - resist))

/-- A character's base stats (data model §3: all nine are numeric). -/
structure BaseStats where
  health : ℚ
  healthRegen : ℚ
  bulletDamage : ℚ
  fireRate : ℚ
  clipSize : ℚ
  reloadTime : ℚ
  moveSpeed : ℚ
  sprintSpeed : ℚ
  stamina : ℚ
deriving DecidableEq, Repr

/-- The part of a hero record that `calculateStats` reads. -/
structure Hero where
  baseStats : BaseStats
deriving DecidableEq, Repr

/-- The mutable stats object built up by `calculateStats` before the final
derived numbers: the nine base stats plus the nine zero-initialized
accumulators. -/
structure Stats where
  health : ℚ
  healthRegen : ℚ
  bulletDamage : ℚ
  fireRate : ℚ
  clipSize : ℚ
  reloadTime : ℚ
  moveSpeed : ℚ
  sprintSpeed : ℚ
  stamina : ℚ
  weaponDamage : ℚ
  spiritPower : ℚ
  bulletLifesteal : ℚ
  spiritLifesteal : ℚ
  bulletResist : ℚ
  spiritResist : ℚ
  cooldownReduction : ℚ
  abilityRange : ℚ
  abilityDuration : ℚ
deriving DecidableEq, Repr

/-- Read `stats[key]`. -/
def getStat (s : Stats) : StatKey → ℚ
  | .health => s.health
  | .healthRegen => s.healthRegen
  | .bulletDamage => s.bulletDamage
  | .fireRate => s.fireRate
  | .clipSize => s.clipSize
  | .reloadTime => s.reloadTime
  | .moveSpeed => s.moveSpeed
  | .sprintSpeed => s.sprintSpeed
  | .stamina => s.stamina
  | .weaponDamage => s.weaponDamage
  | .spiritPower => s.spiritPower
  | .bulletLifesteal => s.bulletLifesteal
  | .spiritLifesteal => s.spiritLifesteal
  | .bulletResist => s.bulletResist
  | .spiritResist => s.spiritResist
  | .cooldownReduction => s.cooldownReduction
  | .abilityRange => s.abilityRange
  | .abilityDuration => s.abilityDuration

/-- Write `stats[key] = v`. -/
def setStat (s : Stats) : StatKey → ℚ → Stats
  | .health, v => { s with health := v }
  | .healthRegen, v => { s with healthRegen := v }
  | .bulletDamage, v => { s with bulletDamage := v }
  | .fireRate, v => { s with fireRate := v }
  | .clipSize, v => { s with clipSize := v }
  | .reloadTime, v => { s with reloadTime := v }
  | .moveSpeed, v => { s with moveSpeed := v }
  | .sprintSpeed, v => { s with sprintSpeed := v }
  | .stamina, v => { s with stamina := v }
  | .weaponDamage, v => { s with weaponDamage := v }
  | .spiritPower, v => { s with spiritPower := v }
  | .bulletLifesteal, v => { s with bulletLifesteal := v }
  | .spiritLifesteal, v => { s with spiritLifesteal := v }
  | .bulletResist, v => { s with bulletResist := v }
  | .spiritResist, v => { s with spiritResist := v }
  | .cooldownReduction, v => { s with cooldownReduction := v }
  | .abilityRange, v => { s with abilityRange := v }
  | .abilityDuration, v => { s with abilityDuration := v }

/-- One item stat-modifier entry:
`stats[stat] = (stats[stat] || 0) + value`.  In this model every addressable
key exists as a numeric field, so `(x || 0) + v` is `x + v` (at `x = 0` both
give `v`). -/
def addStat (s : Stats) (k : StatKey) (v : ℚ) : Stats :=
  setStat s k (getStat s k + v)

/-- The initial stats of `calculateStats`: a copy of the base stats, the nine
accumulators zeroed, and `stats.stamina = stats.stamina || 3` (JS `||` also
replaces a stamina of 0 by the default 3). -/
def initStats (b : BaseStats) : Stats :=
  { health := b.health
    healthRegen := b.healthRegen
    bulletDamage := b.bulletDamage
    fireRate := b.fireRate
    clipSize := b.clipSize
    reloadTime := b.reloadTime
    moveSpeed := b.moveSpeed
    sprintSpeed := b.sprintSpeed
    stamina := if b.stamina = 0 then 3 else b.stamina
    weaponDamage := 0
    spiritPower := 0
    bulletLifesteal := 0
    spiritLifesteal := 0
    bulletResist := 0
    spiritResist := 0
    cooldownReduction := 0
    abilityRange := 0
    abilityDuration := 0 }

/-- `investmentTotals[item.category] += item.cost` (the three keys are
initialized to 0, so `(x || 0) + cost` is a plain addition). -/
def addCategoryCost (t : InvestmentTotals) : Category → ℚ → InvestmentTotals
  | .weapon, c => { t with weapon := t.weapon + c }
  | .vitality, c => { t with vitality := t.vitality + c }
  | .spirit, c => { t with spirit := t.spirit + c }

/-- One iteration of the `items.forEach` in `calculateStats`: a null entry is
skipped (`if (!item) return`); otherwise the item's cost is added to its
category's investment total and each of its stat entries is applied. -/
def applyItem (acc : Stats × InvestmentTotals) (item : Option Item) :
    Stats × InvestmentTotals :=
  match item with
  | none => acc
  | some it =>
      (it.stats.foldl (fun s kv => addStat s kv.1 kv.2) acc.1,
       addCategoryCost acc.2 it.category it.cost)

/-- The full `DerivedStats` snapshot returned by `calculateStats`. -/
structure DerivedStats where
  final : Stats
  investmentBonuses : InvestmentBonuses
  effectiveBulletDamage : ℚ
  dps : ℚ
  burstDamage : ℚ
  effectiveHealth : Option ℚ
  effectiveHealthSpirit : Option ℚ
  totalSouls : ℚ
deriving DecidableEq, Repr

/-- `calculateStats(hero, items, abilityUpgrades)`.  The `abilityUpgrades`
argument is accepted but never read by the source function.  Steps: seed from
base stats, fold the items (nulls skipped) into the stats and the investment
totals, merge the investment-track bonuses into
weaponDamage/health/spiritPower, compute the derived combat numbers, and sum
`item?.cost || 0` over all entries into `totalSouls`. -/
def calculateStats (hero : Hero) (items : List (Option Item))
    (_abilityUpgrades : List (String × ℕ)) : DerivedStats :=
  let s0 := initStats hero.baseStats
  let folded := items.foldl applyItem (s0, ⟨0, 0, 0⟩)
  let bonuses := calculateInvestmentBonuses folded.2
  let s2 :=
    { folded.1 with
        weaponDamage := folded.1.weaponDamage + bonuses.weaponWeaponDamage
        health := folded.1.health + bonuses.vitalityHealth
        spiritPower := folded.1.spiritPower + bonuses.spiritSpiritPower }
  let effectiveBulletDamage := s2.bulletDamage * (1 + s2.weaponDamage)
  { final := s2
    investmentBonuses := bonuses
    effectiveBulletDamage := effectiveBulletDamage
    dps := effectiveBulletDamage * s2.fireRate
    burstDamage := effectiveBulletDamage * s2.clipSize
    effectiveHealth := calculateEffectiveHealth s2.health s2.bulletResist
    effectiveHealthSpirit := calculateEffectiveHealth s2.health s2.spiritResist
    totalSouls :=
      items.foldl
        (fun sum it =>
          sum + (match it with | some i => i.cost | none => 0)) 0 }

/-! ## Ability damage (`calculateAbilityDamage`) and the
`/\+(\d+)\s*(?:Damage|DPS)/i` text pattern -/

/-- ASCII decimal digit, the `\d` class over the effect strings. -/
def isAsciiDigit (c : Char) : Bool :=
  '0' ≤ c && c ≤ '9'

/-- The whitespace class `\s` (ASCII part; the effect strings are ASCII). -/
def isJsWhitespace (c : Char) : Bool :=
  c = ' ' || c = '\t' || c = '\n' || c = '\r' || c = '\x0b' || c = '\x0c'

/-- `parseInt` of a non-empty digit run (the first capture group). -/
def digitsVal (ds : List Char) : ℕ :=
  ds.foldl (fun n c => 10 * n + (c.toNat - '0'.toNat)) 0

/-- Case-insensitive prefix test, the `/i` flag applied to the literal
alternatives `Damage` / `DPS`. -/
def startsWithCI : List Char → List Char → Bool
  | [], _ => true
  | _ :: _, [] => false
  | p :: ps, c :: cs => (p.toLower == c.toLower) && startsWithCI ps cs

/-- Attempt of the pattern `\+(\d+)\s*(?:Damage|DPS)` anchored at the head of
the character list.  Greedy `\d+` never needs backtracking here because a
digit can satisfy neither `\s*`'s continuation nor the `D`/`d` that follows. -/
def matchPlusDamageAt : List Char → Option ℕ
  | '+' :: rest =>
      let ds := rest.takeWhile isAsciiDigit
      if ds.isEmpty then none
      else
        let tail := (rest.drop ds.length).dropWhile isJsWhitespace
        if startsWithCI "Damage".toList tail || startsWithCI "DPS".toList tail then
          some (digitsVal ds)
        else none
  | _ => none

/-- `effect.match(/\+(\d+)\s*(?:Damage|DPS)/i)`: the first position (left to
right) where the pattern matches, yielding the parsed first capture group. -/
def firstDamageMatch : List Char → Option ℕ
  | [] => none
  | c :: cs =>
      match matchPlusDamageAt (c :: cs) with
      | some n => some n
      | none => firstDamageMatch cs

/-- One purchasable ability upgrade; only its free-text `effect` is read. -/
structure Upgrade where
  effect : String
deriving DecidableEq, Repr

/-- The part of an ability record read by `calculateAbilityDamage`:
`baseDamage` and `spiritCoefficient` are optional in the data (§3). -/
structure Ability where
  baseDamage : Option ℚ
  spiritCoefficient : Option ℚ
  upgrades : List Upgrade
deriving DecidableEq, Repr

/-- The record `{base, spiritBonus, upgradeBonus, total}`. -/
structure AbilityDamage where
  base : ℚ
  spiritBonus : ℤ
  upgradeBonus : ℕ
  total : ℤ
deriving DecidableEq, Repr

/-- JS `Math.round`: round half toward +∞. -/
def jsRound (x : ℚ) : ℤ :=
  ⌊x + 1 / 2⌋

/-- The damage contribution regex-mined from upgrade tier `i` (0-based):
`ability.upgrades[i]` absent, or its effect text not matching, contributes 0. -/
def tierDamageBonus (a : Ability) (i : ℕ) : ℕ :=
  match a.upgrades[i]? with
  | some u => (firstDamageMatch u.effect.toList).getD 0
  | none => 0

/-- `calculateAbilityDamage(ability, spiritPower, upgradeLevel)`.  The guard
`if (!ability.baseDamage) return null` is JS-falsy: it returns null both when
`baseDamage` is absent and when it is 0.  The three hard-coded
`upgradeLevel >= k` blocks add the mined bonuses of tiers 1..3. -/
def calculateAbilityDamage (a : Ability) (spiritPower : ℚ) (upgradeLevel : ℕ) :
    Option AbilityDamage :=
  match a.baseDamage with
  | none => none
  | some baseDamage =>
      if baseDamage = 0 then none
      else
        let coefficient := a.spiritCoefficient.getD 0
        let spiritBonus := spiritPower * coefficient
        let u1 := if 1 ≤ upgradeLevel then tierDamageBonus a 0 else 0
        let u2 := if 2 ≤ upgradeLevel then tierDamageBonus a 1 else 0
        let u3 := if 3 ≤ upgradeLevel then tierDamageBonus a 2 else 0
        let upgradeDamageBonus := u1 + u2 + u3
        some
          { base := baseDamage
            spiritBonus := jsRound spiritBonus
            upgradeBonus := upgradeDamageBonus
            total := jsRound (baseDamage + spiritBonus + upgradeDamageBonus) }

/-! ## Ability-point economy -/

/-- The tier costs `[1, 2, 5]`. -/
def abilityPointCosts : List ℕ := [1, 2, 5]

/-- `calculateAbilityPointsUsed(abilityUpgrades)`: for each ability's level,
`for (i = 0; i < level && i < costs.length; i++) total += costs[i]` — the sum
of the first `level` entries of the cost list (`List.take` already caps at
the list's length). -/
def calculateAbilityPointsUsed (abilityUpgrades : List (String × ℕ)) : ℕ :=
  abilityUpgrades.foldl (fun total p => total + (abilityPointCosts.take p.2).sum) 0

/-- The fixed ascending milestone table `{souls, points}`. -/
def soulMilestones : List (ℚ × ℕ) :=
  [(0, 1), (1000, 2), (2500, 3), (4000, 4), (6000, 5), (8000, 6),
   (10000, 7), (13000, 8), (16000, 9), (20000, 10), (25000, 11), (30000, 12)]

/-- The milestone loop of `getAbilityPointsAvailable`: walk the table in
order, keep the points of every met threshold, `break` at the first unmet
one. -/
def milestoneLoop (totalSouls : ℚ) : List (ℚ × ℕ) → ℕ → ℕ
  | [], points => points
  | m :: ms, points =>
      if m.1 ≤ totalSouls then milestoneLoop totalSouls ms m.2 else points

/-- `getAbilityPointsAvailable(totalSouls)`. -/
def getAbilityPointsAvailable (totalSouls : ℚ) : ℕ :=
  milestoneLoop totalSouls soulMilestones 0

/-- Modelled from the spec's wording for C6: "the point total of the highest
milestone threshold ... not exceeding totalSouls" — the last entry of the
ascending table whose threshold is ≤ the souls, else 0. -/
def specPointsAvailable (totalSouls : ℚ) : ℕ :=
  soulMilestones.foldl (fun p m => if m.1 ≤ totalSouls then m.2 else p) 0

/-- An ability whose `baseDamage` field is present but 0. -/
def zeroBaseAbility : Ability := ⟨some 0, some (1 / 2), []⟩

/-- The C5 example ability: `baseDamage = 50`, `spiritCoefficient = 0.5`. -/
def exampleAbility : Ability := ⟨some 50, some (1 / 2), []⟩

/-- A hero whose base stamina is present but 0 (numeric per §3). -/
def heroZeroStamina : Hero :=
  ⟨⟨100, 2, 10, 5, 20, 2, 7, 9, 0⟩⟩

/-- A hero with ordinary non-zero base stats. -/
def heroSample : Hero :=
  ⟨⟨550, 2, 13, 4, 22, 3, 8, 10, 3⟩⟩

/-- A weapon item costing 800 souls granting +10% weapon damage. -/
def itemW : Item := ⟨"itemW", .weapon, 800, [(.weaponDamage, 1 / 10)]⟩

/-- An ability with a matching tier-1 text, a non-matching tier-2 text and a
matching tier-3 text. -/
def upgradedAbility : Ability :=
  ⟨some 60, some (1 / 2), [⟨"+10 Damage"⟩, ⟨"+1s duration"⟩, ⟨"+25 Damage"⟩]⟩

/-! ## Verification -/


example : getTotalSouls slotsA = 100 := by
  norm_num [getTotalSouls, slotsA, emptyBuild, itemA, List.replicate_succ, List.filterMap_cons, List.filterMap_nil, List.foldl_cons, List.foldl_nil]
example : isSlotLocked slotsA 9 = true := by
  norm_num [isSlotLocked, unlockThresholds, getTotalSouls, slotsA, emptyBuild, itemA,
    List.replicate_succ, List.filterMap_cons, List.filterMap_nil, List.foldl_cons, List.foldl_nil]
example : isSlotLocked slotsA 0 = false := by
  norm_num [isSlotLocked, unlockThresholds, getTotalSouls, slotsA, emptyBuild, itemA,
    List.replicate_succ, List.filterMap_cons, List.filterMap_nil, List.foldl_cons, List.foldl_nil]
example : (setItem slotsA 9 itemA).2 = .locked := by
  norm_num [setItem, isSlotLocked, unlockThresholds, getTotalSouls, slotsA, emptyBuild, itemA,
    List.replicate_succ, List.filterMap_cons, List.filterMap_nil, List.foldl_cons, List.foldl_nil]
example : (setItem slotsA 3 itemA).2 = .duplicate := by
  norm_num [setItem, isSlotLocked, unlockThresholds, getTotalSouls, hasItem,
    slotsA, emptyBuild, itemA, List.replicate_succ, List.filterMap_cons, List.filterMap_nil, List.foldl_cons, List.foldl_nil]
example : (setItem slotsA 3 itemB).2 = .ok := by
  norm_num [setItem, isSlotLocked, unlockThresholds, getTotalSouls, hasItem,
    slotsA, emptyBuild, itemA, itemB, List.replicate_succ, List.filterMap_cons,
    List.filterMap_nil, List.foldl_cons, List.foldl_nil]
  decide

example : firstDamageMatch "+8 Damage".toList = some 8 := by decide
example : firstDamageMatch "+40 DPS".toList = some 40 := by decide
example : firstDamageMatch "+115 damage".toList = some 115 := by decide
example : firstDamageMatch "Deals +30  dps to trapped enemies".toList = some 30 := by decide
example : firstDamageMatch "+2s duration, then +25 Damage".toList = some 25 := by decide
example : firstDamageMatch "+35% Fire Rate".toList = none := by decide
example : firstDamageMatch "No bonus here".toList = none := by decide
example : firstDamageMatch "+ 5 Damage".toList = none := by decide

example :
    calculateAbilityDamage upgradedAbility 10 2 =
      some { base := 60, spiritBonus := 5, upgradeBonus := 10, total := 75 } := by
  have h1 : firstDamageMatch ['+', '1', '0', ' ', 'D', 'a', 'm', 'a', 'g', 'e'] = some 10 := by
    decide
  have h2 :
      firstDamageMatch ['+', '1', 's', ' ', 'd', 'u', 'r', 'a', 't', 'i', 'o', 'n'] = none := by
    decide
  norm_num [calculateAbilityDamage, upgradedAbility, tierDamageBonus, jsRound, h1, h2]

example :
    (calculateStats heroSample [some itemW, none] []).final.weaponDamage = 7 / 50 := by
  norm_num [calculateStats, heroSample, itemW, applyItem, addStat, setStat, getStat,
    initStats, calculateInvestmentBonuses, addCategoryCost]

/-- If `hasItem` is false for an identifier, no equipped item carries it. -/
lemma hasItem_false {slots : Slots} {x : String} (h : hasItem slots x = false)
    {it : Item} (hmem : some it ∈ slots) : it.id ≠ x := by
  intro hid
  have htrue : hasItem slots x = true := by
    unfold hasItem
    rw [List.any_eq_true]
    exact ⟨some it, hmem, by simp [hid]⟩
  simp [htrue] at h

/-- `distinctIds` holds for the all-null build of any size. -/
lemma distinctIds_replicate (n : ℕ) : distinctIds (List.replicate n none) := by
  intro i j a b _ hi _
  rcases lt_or_ge i n with hlt | hge
  · rw [List.getElem?_eq_getElem (by simpa using hlt)] at hi
    simp at hi
  · rw [List.getElem?_eq_none (by simpa using hge)] at hi
    exact absurd hi (by simp)

/-- Clearing a slot preserves `distinctIds`. -/
lemma distinctIds_set_none {s : Slots} (h : distinctIds s) (k : ℕ) :
    distinctIds (s.set k none) := by
  intro i j a b hij hi hj
  rw [List.getElem?_set] at hi hj
  by_cases hki : k = i
  · rw [if_pos hki] at hi
    by_cases hkl : k < s.length
    · rw [if_pos hkl] at hi
      exact absurd hi (by simp)
    · rw [if_neg hkl] at hi
      exact absurd hi (by simp)
  · rw [if_neg hki] at hi
    by_cases hkj : k = j
    · rw [if_pos hkj] at hj
      by_cases hkl : k < s.length
      · rw [if_pos hkl] at hj
        exact absurd hj (by simp)
      · rw [if_neg hkl] at hj
        exact absurd hj (by simp)
    · rw [if_neg hkj] at hj
      exact h i j a b hij hi hj

/-- Writing an identifier that no slot currently holds preserves `distinctIds`. -/
lemma distinctIds_set_fresh {s : Slots} (h : distinctIds s) {it : Item}
    (hfresh : hasItem s it.id = false) (k : ℕ) :
    distinctIds (s.set k (some it)) := by
  intro i j a b hij hi hj
  rw [List.getElem?_set] at hi hj
  by_cases hki : k = i
  · rw [if_pos hki] at hi
    rw [if_neg (fun hkj => hij (hki.symm.trans hkj))] at hj
    by_cases hkl : k < s.length
    · rw [if_pos hkl] at hi
      have ha : it = a := by simpa using hi
      have hb : some b ∈ s := List.getElem?_mem hj
      subst ha
      exact fun hab => hasItem_false hfresh hb hab.symm
    · rw [if_neg hkl] at hi
      exact absurd hi (by simp)
  · rw [if_neg hki] at hi
    by_cases hkj : k = j
    · rw [if_pos hkj] at hj
      by_cases hkl : k < s.length
      · rw [if_pos hkl] at hj
        have hb : it = b := by simpa using hj
        have ha : some a ∈ s := List.getElem?_mem hi
        subst hb
        exact hasItem_false hfresh ha
      · rw [if_neg hkl] at hj
        exact absurd hj (by simp)
    · rw [if_neg hkj] at hj
      exact h i j a b hij hi hj

/-- A fold of slot-clearing writes preserves `distinctIds`. -/
lemma distinctIds_foldl_set_none :
    ∀ (l : List ℕ) {s : Slots}, distinctIds s →
      distinctIds (l.foldl (fun acc i => acc.set i none) s)
  | [], _, h => h
  | k :: rest, _, h =>
      distinctIds_foldl_set_none rest (distinctIds_set_none h k)

/-- Every `setItem` call preserves `distinctIds` (each rejection branch leaves
the slots untouched; the success branch writes a fresh identifier). -/
lemma distinctIds_setItem {s : Slots} (h : distinctIds s) (i : ℕ) (it : Item) :
    distinctIds (setItem s i it).1 := by
  by_cases h1 : isSlotLocked s i = true
  · simpa [setItem, h1] using h
  · by_cases h2 : hasItem s it.id = true
    · simpa [setItem, h1, h2] using h
    · have h2' : hasItem s it.id = false := by
        cases hval : hasItem s it.id
        · rfl
        · exact absurd hval h2
      simpa [setItem, h1, h2] using distinctIds_set_fresh h h2' i

/-- C1, counterexample: with `itemA` (cost 100) already in slot 0, total souls
are 100, so slot 9 is locked; `setItem(9, itemA)` then returns the locked
sentinel `false`, not the duplicate rejection, although the item's identifier
is already present and 9 ∈ [0,11]. -/
theorem setItem_locked_beats_duplicate :
    hasItem slotsA itemA.id = true ∧
    (setItem slotsA 9 itemA).2 = SetItemResult.locked ∧
    SetItemResult.locked ≠ SetItemResult.duplicate := by
  refine ⟨by decide, ?_, by decide⟩
  norm_num [setItem, isSlotLocked, unlockThresholds, getTotalSouls, slotsA, emptyBuild,
    itemA, List.replicate_succ, List.filterMap_cons, List.filterMap_nil, List.foldl_cons,
    List.foldl_nil]

/-- C1 (amended): if the target slot is **not** locked, `setItem` of an item
whose identifier is already present in some slot returns the duplicate
rejection and leaves the slots unchanged, for every target slot index. -/
theorem setItem_duplicate_of_hasItem (slots : Slots) (i : ℕ) (item : Item)
    (hlock : isSlotLocked slots i = false)
    (hdup : hasItem slots item.id = true) :
    setItem slots i item = (slots, SetItemResult.duplicate) := by
  simp [setItem, hlock, hdup]

/-- Witness for C1's amended theorem at a concrete input: slot 3 is not
locked in `slotsA`, and `itemA` is already equipped, so `setItem` returns
the duplicate rejection. -/
theorem setItem_duplicate_of_hasItem_witness :
    setItem slotsA 3 itemA = (slotsA, SetItemResult.duplicate) :=
  setItem_duplicate_of_hasItem slotsA 3 itemA
    (by norm_num [isSlotLocked, unlockThresholds, getTotalSouls, slotsA, emptyBuild, itemA,
      List.replicate_succ, List.filterMap_cons, List.filterMap_nil, List.foldl_cons,
      List.foldl_nil])
    (by decide)

/-- C2 (amended): every build state reachable from the empty build by
`setItem`, `removeItem` and `reset` satisfies the no-duplicate-identifier
invariant.  (`loadBuild` is excluded: it does not re-validate, see the
counterexample.) -/
theorem distinctIds_of_reachableNoLoad (s : Slots) (h : ReachableNoLoad s) :
    distinctIds s := by
  induction h with
  | init => exact distinctIds_replicate 12
  | equip s i it _ ih => exact distinctIds_setItem ih i it
  | unequip s i _ ih => exact distinctIds_set_none ih i
  | doReset _ _ ih => exact distinctIds_foldl_set_none (List.range 12) ih

/-- Witness for C2's amended theorem: the state after equipping `itemA` into
slot 0 of the empty build is reachable and satisfies the invariant. -/
theorem distinctIds_of_reachableNoLoad_witness :
    distinctIds (setItem emptyBuild 0 itemA).1 :=
  distinctIds_of_reachableNoLoad _
    (ReachableNoLoad.equip emptyBuild 0 itemA ReachableNoLoad.init)

/-- C2, counterexample: `loadBuild` performs no duplicate validation, so the
state reached from the empty build by a single `loadBuild` of an array
holding the same item twice is reachable by the public operations yet
violates the invariant (slots 0 and 1 both hold `itemA`). -/
theorem loadBuild_breaks_distinctIds :
    Reachable (loadBuild emptyBuild dupData) ∧
    ¬ distinctIds (loadBuild emptyBuild dupData) := by
  refine ⟨Reachable.load emptyBuild dupData Reachable.init, fun h => ?_⟩
  exact h 0 1 itemA itemA (by decide) (by decide) (by decide) rfl

/-- C3, counterexample: slot 0 (an always-usable index < 9) **is** reported
locked when the build contains a negative-cost item, because total souls are
then −1 < 0 = threshold. -/
theorem isSlotLocked_negative_souls :
    isSlotLocked slotsNeg 0 = true := by
  norm_num [isSlotLocked, unlockThresholds, getTotalSouls, slotsNeg, emptyBuild, itemNeg,
    List.replicate_succ, List.filterMap_cons, List.filterMap_nil, List.foldl_cons,
    List.foldl_nil]

/-- C3 (amended): `isSlotLocked i` is exactly `getTotalSouls < threshold(i)`
with thresholds 0 (i ≤ 8), 3000, 6000, 9000; slots 9/10/11 are locked iff the
souls fall short of 3000/6000/9000; and slots 0–8 are unlocked whenever total
souls are non-negative (which a negative-cost item can violate). -/
theorem isSlotLocked_spec (slots : Slots) :
    (∀ i : ℕ, i < 12 →
      (isSlotLocked slots i = true ↔ getTotalSouls slots < unlockThresholds.getD i 0))
  ∧ (isSlotLocked slots 9 = true ↔ getTotalSouls slots < 3000)
  ∧ (isSlotLocked slots 10 = true ↔ getTotalSouls slots < 6000)
  ∧ (isSlotLocked slots 11 = true ↔ getTotalSouls slots < 9000)
  ∧ (0 ≤ getTotalSouls slots → ∀ i : ℕ, i < 9 → isSlotLocked slots i = false) := by
  refine ⟨fun i hi => ?_, ?_, ?_, ?_, fun hpos i hi => ?_⟩
  · interval_cases i <;> simp [isSlotLocked, unlockThresholds]
  · simp [isSlotLocked, unlockThresholds]
  · simp [isSlotLocked, unlockThresholds]
  · simp [isSlotLocked, unlockThresholds]
  · interval_cases i <;> simp [isSlotLocked, unlockThresholds, not_lt.mpr hpos]

/-- Witness for C3's amended theorem at a concrete input: in `slotsA`
(100 souls) slot 9 is locked and slot 0 is not. -/
theorem isSlotLocked_spec_witness :
    isSlotLocked slotsA 9 = true ∧ isSlotLocked slotsA 0 = false := by
  constructor
  · exact (isSlotLocked_spec slotsA).2.1.mpr (by
      norm_num [getTotalSouls, slotsA, emptyBuild, itemA, List.replicate_succ,
        List.filterMap_cons, List.filterMap_nil, List.foldl_cons, List.foldl_nil])
  · exact (isSlotLocked_spec slotsA).2.2.2.2 (by
      norm_num [getTotalSouls, slotsA, emptyBuild, itemA, List.replicate_succ,
        List.filterMap_cons, List.filterMap_nil, List.foldl_cons, List.foldl_nil])
      0 (by norm_num)

/-- Writing back the element already at an index leaves a list unchanged. -/
lemma set_getElem_self (l : Slots) (i : ℕ) (h : i < l.length) : l.set i l[i] = l := by
  apply List.ext_getElem?
  intro n
  rw [List.getElem?_set]
  by_cases hin : i = n
  · subst hin
    rw [if_pos rfl, if_pos h, List.getElem?_eq_getElem h]
  · rw [if_neg hin]

/-- Replaying a suffix of a build's own slots from position `k` onward is the
identity (each write restores the value already there). -/
lemma loadArraySlots_drop (slots : Slots) (hlen : slots.length ≤ 12) :
    ∀ n k, slots.length - k = n → loadArraySlots slots (slots.drop k) k = slots := by
  intro n
  induction n with
  | zero =>
      intro k hk
      have : slots.drop k = [] := List.drop_eq_nil_of_le (by omega)
      rw [this, loadArraySlots]
  | succ n ih =>
      intro k hk
      have hklt : k < slots.length := by omega
      rw [List.drop_eq_getElem_cons hklt, loadArraySlots,
        if_pos (lt_of_lt_of_le hklt hlen), set_getElem_self slots k hklt]
      exact ih (k + 1) (by omega)

/-- C9: for a 12-slot build, `loadBuild(getBuildData())` restores an
identical slots array (the persist/load round trip is the identity on the
current array format). -/
theorem loadBuild_getBuildData (slots : Slots) (hlen : slots.length = 12) :
    loadBuild slots (getBuildData slots) = slots := by
  have h := loadArraySlots_drop slots (le_of_eq hlen) slots.length 0 (by omega)
  simpa [loadBuild, getBuildData] using h

/-- Witness for C9 at a concrete input: the round trip on `slotsA`. -/
theorem loadBuild_getBuildData_witness :
    loadBuild slotsA (getBuildData slotsA) = slotsA :=
  loadBuild_getBuildData slotsA (by norm_num [slotsA, emptyBuild])

/-- C8, counterexample: slot 0 of `slotsA` is occupied by `itemA` and not
locked, and `itemB` is not equipped anywhere; `setItem(0, itemB)` succeeds —
but it silently overwrites, so the previously equipped `itemA` *is* removed
from the build, contrary to the claim that nothing is replaced. -/
theorem setItem_overwrites_occupied_slot :
    isSlotLocked slotsA 0 = false ∧
    hasItem slotsA itemB.id = false ∧
    hasItem slotsA itemA.id = true ∧
    (setItem slotsA 0 itemB).2 = SetItemResult.ok ∧
    hasItem (setItem slotsA 0 itemB).1 itemA.id = false := by
  have hlock : isSlotLocked slotsA 0 = false := by
    norm_num [isSlotLocked, unlockThresholds, getTotalSouls, slotsA, emptyBuild, itemA,
      List.replicate_succ, List.filterMap_cons, List.filterMap_nil, List.foldl_cons,
      List.foldl_nil]
  refine ⟨hlock, by decide, by decide, ?_, ?_⟩
  · rw [setItem, if_neg (by rw [hlock]; exact Bool.false_ne_true),
      if_neg (by decide : ¬ hasItem slotsA itemB.id = true)]
  · rw [setItem, if_neg (by rw [hlock]; exact Bool.false_ne_true),
      if_neg (by decide : ¬ hasItem slotsA itemB.id = true)]
    decide

/-- C8 (amended): `setItem` into a non-locked in-range slot with a
not-already-equipped identifier succeeds, stores the item at the target
index, and leaves every *other* slot untouched — but the target slot's
previous occupant, if any, is silently overwritten. -/
theorem setItem_ok_spec (slots : Slots) (i : ℕ) (item : Item)
    (hi : i < slots.length)
    (hlock : isSlotLocked slots i = false)
    (hdup : hasItem slots item.id = false) :
    (setItem slots i item).2 = SetItemResult.ok ∧
    (setItem slots i item).1[i]? = some (some item) ∧
    ∀ j : ℕ, j ≠ i → (setItem slots i item).1[j]? = slots[j]? := by
  have hs : setItem slots i item = (slots.set i (some item), SetItemResult.ok) := by
    simp [setItem, hlock, hdup]
  rw [hs]
  refine ⟨rfl, ?_, fun j hj => ?_⟩
  · rw [List.getElem?_set, if_pos rfl, if_pos hi]
  · rw [List.getElem?_set, if_neg (fun h => hj h.symm)]

/-- Witness for C8's amended theorem at a concrete input: equipping `itemB`
into empty non-locked slot 1 of `slotsA` succeeds, stores it there, and
leaves slot 0 as it was. -/
theorem setItem_ok_spec_witness :
    (setItem slotsA 1 itemB).2 = SetItemResult.ok ∧
    (setItem slotsA 1 itemB).1[1]? = some (some itemB) ∧
    (setItem slotsA 1 itemB).1[0]? = slotsA[0]? := by
  obtain ⟨h1, h2, h3⟩ := setItem_ok_spec slotsA 1 itemB
    (by norm_num [slotsA, emptyBuild])
    (by norm_num [isSlotLocked, unlockThresholds, getTotalSouls, slotsA, emptyBuild, itemA,
      List.replicate_succ, List.filterMap_cons, List.filterMap_nil, List.foldl_cons,
      List.foldl_nil])
    (by decide)
  exact ⟨h1, h2, h3 0 (by decide)⟩

/-- C4: each track's investment bonus is the magnitude of the highest
breakpoint in {800, 2400, 5600, 12000} not exceeding that category's total
(weapon 0.04/0.10/0.18/0.28, vitality 50/125/225/375, spirit 4/12/24/40),
and 0 below 800; in particular weapon spend 800 → 0.04, 799 → 0,
12000 → 0.28, 50000 → 0.28. -/
theorem calculateInvestmentBonuses_spec :
    (∀ t : InvestmentTotals,
      calculateInvestmentBonuses t =
        ⟨highestTierBonus weaponTierTable t.weapon,
         highestTierBonus vitalityTierTable t.vitality,
         highestTierBonus spiritTierTable t.spirit⟩)
  ∧ (calculateInvestmentBonuses ⟨800, 0, 0⟩).weaponWeaponDamage = 0.04
  ∧ (calculateInvestmentBonuses ⟨799, 0, 0⟩).weaponWeaponDamage = 0
  ∧ (calculateInvestmentBonuses ⟨12000, 0, 0⟩).weaponWeaponDamage = 0.28
  ∧ (calculateInvestmentBonuses ⟨50000, 0, 0⟩).weaponWeaponDamage = 0.28 := by
  refine ⟨fun t => rfl, ?_, ?_, ?_, ?_⟩ <;> norm_num [calculateInvestmentBonuses]

/-- C5, counterexample: an ability *with* a base damage — the field is
present, with value 0 — makes `calculateAbilityDamage` return null, because
the guard `if (!ability.baseDamage)` treats the number 0 as falsy. -/
theorem calculateAbilityDamage_zero_base :
    zeroBaseAbility.baseDamage = some 0 ∧
    calculateAbilityDamage zeroBaseAbility 20 0 = none := by
  refine ⟨rfl, ?_⟩
  simp [calculateAbilityDamage, zeroBaseAbility]

/-- C5 (amended): for every ability with a *non-zero* base damage `b`, every
spirit power and every upgrade level ≤ 3, `calculateAbilityDamage` returns
`{base := b, spiritBonus := round(spiritPower × coefficient), upgradeBonus :=
Σ over tiers below the level of the first "+N Damage/DPS" match, total :=
round(b + unrounded spirit bonus + upgrade bonus)}`; an ability with no base
damage (or with base damage 0, see the counterexample) yields null. -/
theorem calculateAbilityDamage_spec (a : Ability) (sp : ℚ) (lvl : ℕ)
    (hlvl : lvl ≤ 3) :
    (a.baseDamage = none → calculateAbilityDamage a sp lvl = none)
  ∧ ∀ b : ℚ, a.baseDamage = some b → b ≠ 0 →
      calculateAbilityDamage a sp lvl =
        some
          { base := b
            spiritBonus := jsRound (sp * a.spiritCoefficient.getD 0)
            upgradeBonus := ((List.range lvl).map (tierDamageBonus a)).sum
            total := jsRound (b + sp * a.spiritCoefficient.getD 0 +
              ((List.range lvl).map (tierDamageBonus a)).sum) } := by
  constructor
  · intro h
    simp [calculateAbilityDamage, h]
  · intro b hb hb0
    have hsum :
        ((if 1 ≤ lvl then tierDamageBonus a 0 else 0) +
          (if 2 ≤ lvl then tierDamageBonus a 1 else 0) +
          (if 3 ≤ lvl then tierDamageBonus a 2 else 0)) =
        ((List.range lvl).map (tierDamageBonus a)).sum := by
      interval_cases lvl
      · simp
      · simp [List.range_succ]
      · simp [List.range_succ]
      · simp [List.range_succ]
        omega
    simp only [calculateAbilityDamage, hb, if_neg hb0, hsum]

/-- Witness for C5's amended theorem at the spec's own example:
base 50, coefficient 0.5, spirit power 20, upgrade level 0 →
`{base: 50, spiritBonus: 10, upgradeBonus: 0, total: 60}`. -/
theorem calculateAbilityDamage_spec_witness :
    calculateAbilityDamage exampleAbility 20 0 =
      some { base := 50, spiritBonus := 10, upgradeBonus := 0, total := 60 } := by
  have h :=
    (calculateAbilityDamage_spec exampleAbility 20 0 (by norm_num)).2 50 rfl (by norm_num)
  rw [h]
  norm_num [jsRound, exampleAbility]

/-- A running-total fold of `f` equals the initial value plus the sum of the
mapped list. -/
lemma foldl_add_eq_sum_map {α : Type} (f : α → ℕ) :
    ∀ (l : List α) (init : ℕ), l.foldl (fun t x => t + f x) init = init + (l.map f).sum := by
  intro l
  induction l with
  | nil => intro init; simp
  | cons x rest ih =>
      intro init
      rw [List.foldl_cons, ih, List.map_cons, List.sum_cons]
      omega

/-- A fold over milestones none of which is met leaves the accumulator. -/
lemma foldl_milestones_no_match (t : ℚ) :
    ∀ (l : List (ℚ × ℕ)) (p : ℕ), (∀ x ∈ l, ¬ x.1 ≤ t) →
      l.foldl (fun q m => if m.1 ≤ t then m.2 else q) p = p := by
  intro l
  induction l with
  | nil => intro p _; rfl
  | cons m ms ih =>
      intro p hall
      rw [List.foldl_cons, if_neg (hall m (List.mem_cons_self m ms))]
      exact ih p (fun x hx => hall x (List.mem_cons_of_mem m hx))

/-- On a table with ascending thresholds, the break-at-first-miss loop of
`getAbilityPointsAvailable` agrees with taking the last met entry. -/
lemma milestoneLoop_eq_foldl (t : ℚ) :
    ∀ (l : List (ℚ × ℕ)) (p : ℕ), l.Pairwise (fun a b => a.1 ≤ b.1) →
      milestoneLoop t l p = l.foldl (fun q m => if m.1 ≤ t then m.2 else q) p := by
  intro l
  induction l with
  | nil => intro p _; rfl
  | cons m ms ih =>
      intro p hp
      rw [List.pairwise_cons] at hp
      by_cases hm : m.1 ≤ t
      · rw [milestoneLoop, if_pos hm, List.foldl_cons, if_pos hm]
        exact ih m.2 hp.2
      · rw [milestoneLoop, if_neg hm, List.foldl_cons, if_neg hm]
        exact (foldl_milestones_no_match t ms p
          (fun x hx hxle => hm (le_trans (hp.1 x hx) hxle))).symm

/-- The milestone table's thresholds are ascending. -/
lemma soulMilestones_sorted :
    soulMilestones.Pairwise (fun a b => a.1 ≤ b.1) := by
  norm_num [soulMilestones, List.pairwise_cons]

/-- C6: `pointsUsed` sums, per ability, the first `level` entries of the cost
list [1,2,5] (level 3 costs 8, level 0 costs 0), and for non-negative souls
`pointsAvailable` returns the point total of the highest milestone threshold
not exceeding the souls; in particular pointsAvailable(2500)=3,
pointsAvailable(2499)=2, pointsAvailable(0)=1. -/
theorem abilityPoints_spec :
    (∀ ups : List (String × ℕ),
      calculateAbilityPointsUsed ups =
        (ups.map (fun p => (abilityPointCosts.take p.2).sum)).sum)
  ∧ calculateAbilityPointsUsed [("a", 3)] = 8
  ∧ calculateAbilityPointsUsed [("a", 0)] = 0
  ∧ (∀ s : ℚ, 0 ≤ s → getAbilityPointsAvailable s = specPointsAvailable s)
  ∧ getAbilityPointsAvailable 2500 = 3
  ∧ getAbilityPointsAvailable 2499 = 2
  ∧ getAbilityPointsAvailable 0 = 1 := by
  refine ⟨fun ups => ?_, ?_, ?_, fun s _ => ?_, ?_, ?_, ?_⟩
  · rw [calculateAbilityPointsUsed, foldl_add_eq_sum_map, Nat.zero_add]
  · rfl
  · rfl
  · rw [getAbilityPointsAvailable, specPointsAvailable,
      milestoneLoop_eq_foldl s soulMilestones 0 soulMilestones_sorted]
  · norm_num [getAbilityPointsAvailable, soulMilestones, milestoneLoop]
  · norm_num [getAbilityPointsAvailable, soulMilestones, milestoneLoop]
  · norm_num [getAbilityPointsAvailable, soulMilestones, milestoneLoop]

/-- Witness for C6 at a concrete input: the loop and the
highest-met-threshold reading agree at 2500 souls. -/
theorem abilityPoints_spec_witness :
    getAbilityPointsAvailable 2500 = specPointsAvailable 2500 :=
  abilityPoints_spec.2.2.2.1 2500 (by norm_num)

/-- C7, counterexample: with an empty item list and no upgrades,
`calculateStats` does **not** leave the base stats unmodified — a base
stamina of 0 comes back as 3, because the seed step runs
`stats.stamina = stats.stamina || 3` and JS `||` treats 0 as falsy. -/
theorem calculateStats_stamina_not_preserved :
    heroZeroStamina.baseStats.stamina = 0 ∧
    (calculateStats heroZeroStamina [] []).final.stamina = 3 := by
  constructor
  · rfl
  · norm_num [calculateStats, initStats, heroZeroStamina, applyItem,
      calculateInvestmentBonuses]

/-- C7 (amended): `calculateStats` on an empty item list and no upgrades
returns the base stats unmodified — except stamina, which the seed step
defaults to 3 whenever the base value is 0/unset — with the nine derived
accumulator fields 0 and `totalSouls = 0`. -/
theorem calculateStats_empty_build (hero : Hero) :
    (calculateStats hero [] []).final.health = hero.baseStats.health ∧
    (calculateStats hero [] []).final.healthRegen = hero.baseStats.healthRegen ∧
    (calculateStats hero [] []).final.bulletDamage = hero.baseStats.bulletDamage ∧
    (calculateStats hero [] []).final.fireRate = hero.baseStats.fireRate ∧
    (calculateStats hero [] []).final.clipSize = hero.baseStats.clipSize ∧
    (calculateStats hero [] []).final.reloadTime = hero.baseStats.reloadTime ∧
    (calculateStats hero [] []).final.moveSpeed = hero.baseStats.moveSpeed ∧
    (calculateStats hero [] []).final.sprintSpeed = hero.baseStats.sprintSpeed ∧
    (calculateStats hero [] []).final.stamina =
      (if hero.baseStats.stamina = 0 then 3 else hero.baseStats.stamina) ∧
    (calculateStats hero [] []).final.weaponDamage = 0 ∧
    (calculateStats hero [] []).final.spiritPower = 0 ∧
    (calculateStats hero [] []).final.bulletLifesteal = 0 ∧
    (calculateStats hero [] []).final.spiritLifesteal = 0 ∧
    (calculateStats hero [] []).final.bulletResist = 0 ∧
    (calculateStats hero [] []).final.spiritResist = 0 ∧
    (calculateStats hero [] []).final.cooldownReduction = 0 ∧
    (calculateStats hero [] []).final.abilityRange = 0 ∧
    (calculateStats hero [] []).final.abilityDuration = 0 ∧
    (calculateStats hero [] []).totalSouls = 0 := by
  norm_num [calculateStats, initStats, calculateInvestmentBonuses]

/-- Filtering out the null entries does not change the stats/investment fold
of `calculateStats` (a null entry is skipped by `if (!item) return`). -/
lemma foldl_applyItem_filter :
    ∀ (items : List (Option Item)) (acc : Stats × InvestmentTotals),
      (items.filter (fun it => it.isSome)).foldl applyItem acc =
        items.foldl applyItem acc := by
  intro items
  induction items with
  | nil => intro acc; rfl
  | cons it rest ih =>
      intro acc
      cases it with
      | none =>
          rw [List.filter_cons_of_neg (by simp), List.foldl_cons]
          exact ih acc
      | some x =>
          rw [List.filter_cons_of_pos (by simp), List.foldl_cons, List.foldl_cons]
          exact ih (applyItem acc (some x))

/-- Filtering out the null entries does not change the `totalSouls` fold
(a null entry contributes `item?.cost || 0 = 0`). -/
lemma foldl_souls_filter :
    ∀ (items : List (Option Item)) (acc : ℚ),
      (items.filter (fun it => it.isSome)).foldl
          (fun sum it => sum + (match it with | some i => i.cost | none => 0)) acc =
        items.foldl
          (fun sum it => sum + (match it with | some i => i.cost | none => 0)) acc := by
  intro items
  induction items with
  | nil => intro acc; rfl
  | cons it rest ih =>
      intro acc
      cases it with
      | none =>
          rw [List.filter_cons_of_neg (by simp), List.foldl_cons]
          rw [show acc + (match (none : Option Item) with
            | some i => i.cost | none => 0) = acc by simp]
          exact ih acc
      | some x =>
          rw [List.filter_cons_of_pos (by simp), List.foldl_cons, List.foldl_cons]
          exact ih _

/-- C10: `calculateStats` returns the same `DerivedStats` whether or not the
item list contains null entries — null slots contribute nothing to the item
stats, the investment totals, or `totalSouls`. -/
theorem calculateStats_ignores_nulls (hero : Hero) (items : List (Option Item))
    (ups : List (String × ℕ)) :
    calculateStats hero items ups =
      calculateStats hero (items.filter (fun it => it.isSome)) ups := by
  unfold calculateStats
  simp only [foldl_applyItem_filter, foldl_souls_filter]

end Deadlock


